import Mathlib

/-!
Shallow embedding of `src/cal/local.rs` (the `datetime` crate's local
calendar module): dates, times, date-times and the epoch/cycle arithmetic
converting between calendar triples and linear day counts.

Conventions of the embedding:
* Rust `i64`/`i8`/`i16` values are modelled as `Int`.  Rust's `/` and `%`
  on signed integers truncate toward zero, so they are modelled by
  `Int.tdiv` and `Int.tmod`.  Rust `as i8` / `as i16` narrowing casts are
  modelled by `i8cast` / `i16cast` (two's-complement wrap).  No `i64`
  operation in the modelled code is exercised near overflow by the
  theorems below, so `i64` arithmetic is modelled exactly.
* Rust `Result<T, Error>` is `Except Error T`.
* `.unwrap()` on a `Result<i64>` is modelled by `unwrapOr0` (the panic
  case returns 0; every use below is on an `ok` value).
* The `Month`, `Weekday` and `Year` collaborators live in a different file
  of the crate that is not part of the given sources; they are modelled
  from the spec (see the doc comment of each).
-/

/-- Two's-complement wrap of an integer into the `i8` range, modelling
Rust's `as i8` narrowing cast. -/
def i8cast (x : Int) : Int := (x + 128) % 256 - 128

/-- Two's-complement wrap of an integer into the `i16` range, modelling
Rust's `as i16` narrowing cast. -/
def i16cast (x : Int) : Int := (x + 32768) % 65536 - 32768

/-- Number of days guaranteed to be in four years. -/
def DAYS_IN_4Y : Int := 365 * 4 + 1

/-- Number of days guaranteed to be in a hundred years. -/
def DAYS_IN_100Y : Int := 365 * 100 + 24

/-- Number of days guaranteed to be in four hundred years. -/
def DAYS_IN_400Y : Int := 365 * 400 + 97

/-- Number of seconds in a day (leap seconds are ignored). -/
def SECONDS_IN_DAY : Int := 86400

/-- Number of days between 1st January 1970 and 1st March 2000
(the library's day-0 anchor). -/
def EPOCH_DIFFERENCE : Int := 30 * 365 + 7 + 31 + 29

/-- Array of the number of days elapsed at the end of each month, starting
at the beginning of March (the first month after the epoch anchor), going
backwards, ignoring February: entries for January, December, ..., March. -/
def TIME_TRIANGLE : List Int :=
  [31 + 30 + 31 + 30 + 31 + 31 + 30 + 31 + 30 + 31 + 31,
   31 + 30 + 31 + 30 + 31 + 31 + 30 + 31 + 30 + 31,
   31 + 30 + 31 + 30 + 31 + 31 + 30 + 31 + 30,
   31 + 30 + 31 + 30 + 31 + 31 + 30 + 31,
   31 + 30 + 31 + 30 + 31 + 31 + 30,
   31 + 30 + 31 + 30 + 31 + 31,
   31 + 30 + 31 + 30 + 31,
   31 + 30 + 31 + 30,
   31 + 30 + 31,
   31 + 30,
   31]

deriving instance DecidableEq for Except

/-- The single error kind of the module. -/
inductive Error where
  | OutOfRange
deriving DecidableEq, Repr

/-- Modelled from the spec: the `Month` collaborator, "12 ordered variants
(January...December)". -/
inductive Month where
  | January | February | March | April | May | June
  | July | August | September | October | November | December
deriving DecidableEq, Repr

/-- Zero-based ordinal of a month (January = 0), the inverse of
`Month.from_zero`. -/
def Month.natOrd : Month → Nat
  | .January => 0 | .February => 1 | .March => 2 | .April => 3
  | .May => 4 | .June => 5 | .July => 6 | .August => 7
  | .September => 8 | .October => 9 | .November => 10 | .December => 11

/-- Modelled from the spec: `Month::from_zero(i8) -> Option<Month>`
(0-based index). -/
def Month.from_zero (i : Int) : Option Month :=
  if i = 0 then some .January else if i = 1 then some .February
  else if i = 2 then some .March else if i = 3 then some .April
  else if i = 4 then some .May else if i = 5 then some .June
  else if i = 6 then some .July else if i = 7 then some .August
  else if i = 8 then some .September else if i = 9 then some .October
  else if i = 10 then some .November else if i = 11 then some .December
  else none

/-- Modelled from the spec: `Month::days_in_month(is_leap) -> i8`, the
number of days in the month for the given leapness. -/
def Month.days_in_month (m : Month) (is_leap_year : Bool) : Int :=
  match m with
  | .January => 31 | .February => if is_leap_year then 29 else 28
  | .March => 31 | .April => 30 | .May => 31 | .June => 30
  | .July => 31 | .August => 31 | .September => 30
  | .October => 31 | .November => 30 | .December => 31

/-- Modelled from the spec: `Month::days_before_start() -> i16`, the
cumulative number of days in all prior months of a non-leap year. -/
def Month.days_before_start (m : Month) : Int :=
  match m with
  | .January => 0 | .February => 31 | .March => 59 | .April => 90
  | .May => 120 | .June => 151 | .July => 181 | .August => 212
  | .September => 243 | .October => 273 | .November => 304 | .December => 334

/-- Modelled from the spec: the `Weekday` collaborator, "7 ordered variants
(Monday...Sunday)". -/
inductive Weekday where
  | Monday | Tuesday | Wednesday | Thursday | Friday | Saturday | Sunday
deriving DecidableEq, Repr

/-- Modelled from the spec: `Weekday::from_zero(i8) -> Option<Weekday>`.
The ordinal base (0 = Sunday) is pinned by the source's own comment in
`days_to_weekday` ("March 1st, 2000 was a Wednesday, so add 3 to the
number of days"), which forces `from_zero 3 = Wednesday`; it is
cross-checked by `from_zero 4 = Thursday` landing `days_to_weekday` on a
Thursday for 1 January 1970. -/
def Weekday.from_zero (i : Int) : Option Weekday :=
  if i = 0 then some .Sunday else if i = 1 then some .Monday
  else if i = 2 then some .Tuesday else if i = 3 then some .Wednesday
  else if i = 4 then some .Thursday else if i = 5 then some .Friday
  else if i = 6 then some .Saturday else none

/-- Modelled from the spec: `Year::is_leap_year()`, the standard proleptic
Gregorian rule "divisible by 4, and not by 100 unless by 400" (spec section 8
leap-year examples and glossary). `%` is `Int.emod`, which keeps the rule
correct for negative years. -/
def Year.is_leap_year (y : Int) : Bool :=
  decide (y % 4 = 0 ∧ (y % 100 ≠ 0 ∨ y % 400 = 0))

/-- Cumulative count of proleptic-Gregorian leap years: the difference
`leapYearsCumulative b - leapYearsCumulative a` is the signed number of
leap years `z` with `a ≤ z < b`.  `/` is `Int.ediv` (floor for these
positive divisors), so the count is exact for negative years too. -/
def leapYearsCumulative (y : Int) : Int :=
  (y - 1) / 4 - (y - 1) / 100 + (y - 1) / 400

/-- Modelled from the spec: `Year::leap_year_calculations() ->
(leap_days_elapsed_since_year_2000: i64, is_leap_year: bool)`.  The first
component is the signed number of leap years elapsed between the start of
year 2000 and the start of this year, minus one: the spec's formula in
section 4.1 pairs it with the constant 10958, described there as the number of
days between 1 Jan 2000 and 1 Jan 1970, which pre-counts the year-2000
leap day (the actual day count is 10957), so the year-2000 leap day must
not be counted again here. -/
def Year.leap_year_calculations (y : Int) : Int × Bool :=
  (leapYearsCumulative y - leapYearsCumulative 2000 - 1, Year.is_leap_year y)

/-- Split a number of periods into cycles and a wrapped-positive remainder
(`split_cycles` in the source): truncating division and remainder, with a
negative remainder wrapped around by one cycle. -/
def split_cycles (number_of_periods : Int) (cycle_length : Int) : Int × Int :=
  let cycles := number_of_periods.tdiv cycle_length
  let remainder := number_of_periods.tmod cycle_length
  if remainder < 0 then (cycles - 1, remainder + cycle_length)
  else (cycles, remainder)

/-- An unchecked (year, month, day) triple (`YMD` in the source). -/
structure YMD where
  year : Int
  month : Month
  day : Int
deriving DecidableEq, Repr

/-- A validated local date (`Date` in the source): a `YMD` plus the derived
`yearday` and `weekday` fields. -/
structure Date where
  ymd : YMD
  yearday : Int
  weekday : Weekday
deriving DecidableEq, Repr

/-- A local time (`Time` in the source). -/
structure Time where
  hour : Int
  minute : Int
  second : Int
  millisecond : Int
deriving DecidableEq, Repr

/-- A local date-time (`DateTime` in the source). -/
structure DateTime where
  date : Date
  time : Time
deriving DecidableEq, Repr

/-- Modelled from the spec: the opaque linear-time `Instant` collaborator,
"absolute linear time point; seconds() -> i64, milliseconds() -> i16;
constructible from (seconds, milliseconds)". -/
structure Instant where
  seconds : Int
  milliseconds : Int
deriving DecidableEq, Repr

/-- Modelled from the spec: `Instant`'s constructor from a seconds value
and a milliseconds value. -/
def Instant.at_ms (s : Int) (ms : Int) : Instant := ⟨s, ms⟩

/-- Rust's `.unwrap()` on a `Result<i64>`, with the panic modelled as 0;
every use in the development is on an `ok` value. -/
def unwrapOr0 (r : Except Error Int) : Int :=
  match r with
  | .ok v => v
  | .error _ => 0

/-- Whether this datestamp is valid: the day is in the range allowed by
the month (`YMD::is_valid`). -/
def YMD.is_valid (self : YMD) (is_leap_year : Bool) : Bool :=
  decide (1 ≤ self.day ∧ self.day ≤ self.month.days_in_month is_leap_year)

/-- Number of days elapsed since 1st January 1970 if this datestamp is
valid, an `OutOfRange` error otherwise (`YMD::to_days_since_epoch`). -/
def YMD.to_days_since_epoch (self : YMD) : Except Error Int :=
  let years := self.year - 2000
  let p := Year.leap_year_calculations self.year
  let leap_days_elapsed := p.1
  let is_leap_year := p.2
  if ¬ (self.is_valid is_leap_year) then Except.error Error.OutOfRange
  else
    Except.ok (years * 365 + 10958 + leap_days_elapsed
      + self.month.days_before_start
      + (if is_leap_year ∧ 2 ≤ self.month.natOrd then 1 else 0)
      + (self.day - 1))

/-- The weekday of the given number of days past the epoch anchor
(`days_to_weekday`); the source's in-range `.unwrap()` is modelled by
`Option.getD`. -/
def days_to_weekday (days : Int) : Weekday :=
  let weekday := (days + 3).tmod 7
  (Weekday.from_zero (if weekday < 0 then weekday + 7 else weekday)).getD .Sunday

/-- Computes a `Date` from the number of days that have passed since the
epoch anchor, 1 March 2000 (`Date::from_days_since_epoch`).  The source's
sequence of in-place updates of `remainder`, `years` and `month` is
written as a chain of immutable bindings; the in-range `.unwrap()` on the
month is modelled by `Option.getD`. -/
def Date.from_days_since_epoch (days : Int) : Date :=
  let p := split_cycles days DAYS_IN_400Y
  let num_400y_cycles := p.1
  let rem0 := p.2
  let num_100y_cycles := rem0.tdiv DAYS_IN_100Y
  let rem1 := rem0 - num_100y_cycles * DAYS_IN_100Y
  let num_4y_cycles := rem1.tdiv DAYS_IN_4Y
  let rem2 := rem1 - num_4y_cycles * DAYS_IN_4Y
  let years0 := rem2.tdiv 365
  let rem3 := rem2 - years0 * 365
  let days_this_year : Int :=
    if years0 = 0 ∧ ¬ (num_4y_cycles = 0 ∧ num_100y_cycles ≠ 0) then 366 else 365
  let doy0 := rem3 + days_this_year - 306
  let day_of_year := if doy0 ≥ days_this_year then doy0 - days_this_year else doy0
  let years1 := years0 + 4 * num_4y_cycles + 100 * num_100y_cycles
    + 400 * num_400y_cycles
  let scan := TIME_TRIANGLE.enum.find? fun q => decide (q.2 ≤ rem3)
  let mp : Int × Int :=
    match scan with
    | some iv => ((11 : Int) - iv.1, rem3 - iv.2)
    | none => (0, rem3)
  let month1 := mp.1 + 2
  let years2 := if month1 ≥ 12 then years1 + 1 else years1
  let month2 := if month1 ≥ 12 then month1 - 12 else month1
  let month_variant := (Month.from_zero month2).getD .January
  { yearday := i16cast (day_of_year + 1),
    weekday := days_to_weekday days,
    ymd := { year := years2 + 2000,
             month := month_variant,
             day := i8cast (mp.2 + 1) } }

/-- The intermediate `days_this_year` value of
`Date.from_days_since_epoch` (source lines 271-295), exposed for reasoning
about the leap-year slot decision. -/
def days_this_year_of (days : Int) : Int :=
  let p := split_cycles days DAYS_IN_400Y
  let rem0 := p.2
  let num_100y_cycles := rem0.tdiv DAYS_IN_100Y
  let rem1 := rem0 - num_100y_cycles * DAYS_IN_100Y
  let num_4y_cycles := rem1.tdiv DAYS_IN_4Y
  let rem2 := rem1 - num_4y_cycles * DAYS_IN_4Y
  let years0 := rem2.tdiv 365
  if years0 = 0 ∧ ¬ (num_4y_cycles = 0 ∧ num_100y_cycles ≠ 0) then 366 else 365

/-- Creates a local date from year, month and day fields, checked for
validity (`Date::ymd` in the source; written `Date.ymd'` here because the
structure field `ymd` occupies the name). -/
def Date.ymd' (year : Int) (month : Month) (day : Int) : Except Error Date :=
  (YMD.to_days_since_epoch ⟨year, month, day⟩).map
    (fun days => Date.from_days_since_epoch (days - EPOCH_DIFFERENCE))

/-- Creates a local date from year and day-of-year values (`Date::yd`). -/
def Date.yd (year : Int) (yearday : Int) : Except Error Date :=
  if 0 ≤ yearday ∧ yearday < 367 then
    match YMD.to_days_since_epoch ⟨year, Month.January, 1⟩ with
    | .error e => .error e
    | .ok days =>
        .ok (Date.from_days_since_epoch (days + yearday - 1 - EPOCH_DIFFERENCE))
  else .error Error.OutOfRange

/-- Hours, minutes and seconds from the number of seconds elapsed since
midnight plus a millisecond-of-second value
(`Time::from_seconds_and_milliseconds_since_midnight`); unvalidated. -/
def Time.from_seconds_and_milliseconds_since_midnight
    (seconds : Int) (millisecond_of_second : Int) : Time :=
  { hour := i8cast ((seconds.tdiv 60).tdiv 60),
    minute := i8cast ((seconds.tdiv 60).tmod 60),
    second := i8cast (seconds.tmod 60),
    millisecond := millisecond_of_second }

/-- Hours, minutes and seconds from the number of seconds elapsed since
midnight (`Time::from_seconds_since_midnight`). -/
def Time.from_seconds_since_midnight (seconds : Int) : Time :=
  Time.from_seconds_and_milliseconds_since_midnight seconds 0

/-- The time at midnight, all fields 0 (`Time::midnight`). -/
def Time.midnight : Time := ⟨0, 0, 0, 0⟩

/-- Validated constructor from hour and minute (`Time::hm`). -/
def Time.hm (hour : Int) (minute : Int) : Except Error Time :=
  if (0 ≤ hour ∧ hour < 24 ∧ 0 ≤ minute ∧ minute < 60)
      ∨ (hour = 24 ∧ minute = 0) then
    Except.ok ⟨hour, minute, 0, 0⟩
  else Except.error Error.OutOfRange

/-- Validated constructor from hour, minute and second (`Time::hms`). -/
def Time.hms (hour : Int) (minute : Int) (second : Int) : Except Error Time :=
  if (0 ≤ hour ∧ hour < 24 ∧ 0 ≤ minute ∧ minute < 60 ∧ 0 ≤ second ∧ second < 60)
      ∨ (hour = 24 ∧ minute = 0 ∧ second = 0) then
    Except.ok ⟨hour, minute, second, 0⟩
  else Except.error Error.OutOfRange

/-- Validated constructor from hour, minute, second and millisecond
(`Time::hms_ms`); it has no `24:00:00` sentinel case. -/
def Time.hms_ms (hour : Int) (minute : Int) (second : Int) (millisecond : Int) :
    Except Error Time :=
  if 0 ≤ hour ∧ hour < 24 ∧ 0 ≤ minute ∧ minute < 60
      ∧ 0 ≤ second ∧ second < 60 ∧ 0 ≤ millisecond ∧ millisecond < 1000 then
    Except.ok ⟨hour, minute, second, millisecond⟩
  else Except.error Error.OutOfRange

/-- Number of seconds since midnight, ignoring milliseconds
(`Time::to_seconds`). -/
def Time.to_seconds (self : Time) : Int :=
  self.hour * 3600 + self.minute * 60 + self.second

/-- A date-time from the number of seconds elapsed since midnight
1 January 1970 plus a millisecond-of-second value (`DateTime::at_ms`). -/
def DateTime.at_ms (seconds_since_1970_epoch : Int) (millisecond_of_second : Int) :
    DateTime :=
  let seconds := seconds_since_1970_epoch - EPOCH_DIFFERENCE * SECONDS_IN_DAY
  let p := split_cycles seconds SECONDS_IN_DAY
  { date := Date.from_days_since_epoch p.1,
    time := Time.from_seconds_and_milliseconds_since_midnight p.2 millisecond_of_second }

/-- A date-time from the number of seconds elapsed since midnight
1 January 1970 (`DateTime::at`). -/
def DateTime.at (seconds_since_1970_epoch : Int) : DateTime :=
  DateTime.at_ms seconds_since_1970_epoch 0

/-- A date-time from an `Instant` (`DateTime::from_instant`). -/
def DateTime.from_instant (instant : Instant) : DateTime :=
  DateTime.at_ms instant.seconds instant.milliseconds

/-- A date-time from a date and a time (`DateTime::new`). -/
def DateTime.new (date : Date) (time : Time) : DateTime := ⟨date, time⟩

/-- The `Instant` of a date-time (`DateTime::to_instant`); the source's
`.unwrap()` is modelled by `unwrapOr0`. -/
def DateTime.to_instant (self : DateTime) : Instant :=
  let seconds := unwrapOr0 self.date.ymd.to_days_since_epoch * SECONDS_IN_DAY
    + self.time.to_seconds
  Instant.at_ms seconds self.time.millisecond

/-- Finite check over one 400-year Gregorian cycle: for every year
2000 + b with 1 ≤ b ≤ 400, the anchor-relative day offset of
31 December (2000 + b - 1), namely 365b + leap_days_elapsed(2000 + b) - 60,
lies in [0, 146097) and decodes to 31 December (1999 + b). -/
def dec31Check : Bool :=
  (List.range 400).all fun n =>
    let b : Int := (n : Int) + 1
    let off := 365 * b + (Year.leap_year_calculations (2000 + b)).1 - 60
    decide (0 ≤ off ∧ off < 146097
      ∧ (Date.from_days_since_epoch off).ymd = ⟨1999 + b, Month.December, 31⟩)

/- ======================  theorems  ====================== -/

/-- Truncated remainder of a negated dividend. -/
theorem tmod_neg_dividend (a b : Int) : (-a).tmod b = -(a.tmod b) := by
  rw [Int.tmod_def, Int.tmod_def, Int.neg_tdiv]; ring

/-- For a positive cycle length, `split_cycles` computes Euclidean
(floor) division and remainder. -/
theorem split_cycles_eq_ediv_emod (n len : Int) (h : 0 < len) :
    split_cycles n len = (n / len, n % len) := by
  unfold split_cycles
  have hqr : len * n.tdiv len + n.tmod len = n := Int.tdiv_add_tmod n len
  by_cases hr : n.tmod len < 0
  · have hn : n < 0 := by
      by_contra hcon
      have h0 : 0 ≤ n.tmod len := @Int.tmod_nonneg n len (by omega)
      omega
    have hlb : -(len) < n.tmod len := by
      have h1 : (-n).tmod len < len := Int.tmod_lt_of_pos (-n) h
      have h2 : n.tmod len = -((-n).tmod len) := by
        rw [tmod_neg_dividend]; ring
      omega
    simp only [hr, if_true]
    have heq := (@Int.ediv_emod_unique n len (n.tmod len + len) (n.tdiv len - 1) h).mpr
      (by refine ⟨by ring_nf; omega, by omega, by omega⟩)
    exact Prod.ext (heq.1.symm) (heq.2.symm)
  · simp only [hr, if_false]
    have hlt : n.tmod len < len := Int.tmod_lt_of_pos n h
    have heq := (@Int.ediv_emod_unique n len (n.tmod len) (n.tdiv len) h).mpr
      (by refine ⟨by ring_nf; omega, by omega, by omega⟩)
    exact Prod.ext (heq.1.symm) (heq.2.symm)

/-- C1: for every integer n and every positive cycle length len,
`split_cycles n len` returns (cycles, remainder) with the remainder in
[0, len) and n = cycles * len + remainder: true mathematical floor
division with wrap, including for negative n. -/
theorem split_cycles_floor_division (n len : Int) (h : 0 < len) :
    0 ≤ (split_cycles n len).2 ∧ (split_cycles n len).2 < len
      ∧ n = (split_cycles n len).1 * len + (split_cycles n len).2 := by
  rw [split_cycles_eq_ediv_emod n len h]
  have hdm : len * (n / len) + n % len = n := Int.ediv_add_emod n len
  refine ⟨Int.emod_nonneg n (by omega), Int.emod_lt_of_pos n h, ?_⟩
  rw [Int.mul_comm] at hdm
  exact hdm.symm

/-- Witness for C1 at the concrete input n = -7, len = 3 (where
`split_cycles` returns (-3, 2)). -/
theorem split_cycles_floor_division_witness :
    0 ≤ (split_cycles (-7) 3).2 ∧ (split_cycles (-7) 3).2 < 3
      ∧ (-7 : Int) = (split_cycles (-7) 3).1 * 3 + (split_cycles (-7) 3).2 :=
  split_cycles_floor_division (-7) 3 (by norm_num)

/-- C5 (counterexample): `EPOCH_DIFFERENCE` is not 10988 days; the spec's
arithmetic slip, since 30 * 365 + 7 + 31 + 29 = 11017. -/
theorem epoch_difference_not_10988 : EPOCH_DIFFERENCE ≠ 10988 := by decide

/-- C5 (amended): `EPOCH_DIFFERENCE`, computed as 30 * 365 + 7 + 31 + 29,
equals 11017 days. -/
theorem epoch_difference_value :
    EPOCH_DIFFERENCE = 30 * 365 + 7 + 31 + 29 ∧ EPOCH_DIFFERENCE = 11017 :=
  ⟨rfl, by decide⟩

/-- C2 (code evaluated at the failing input): the triple
(2004, February, 29) is valid — `to_days_since_epoch` accepts it, with day
offset 12477 — yet `Date::ymd` returns a `Date` whose month and day fields
are March 1, not the inputs: `from_days_since_epoch` collapses every leap
day onto the following 1 March because its year/century divisions are not
capped. -/
theorem ymd_feb29_collapses_to_mar1 :
    YMD.to_days_since_epoch ⟨2004, Month.February, 29⟩ = Except.ok 12477
  ∧ Date.ymd' 2004 Month.February 29
      = Except.ok ⟨⟨2004, Month.March, 1⟩, 60, Weekday.Sunday⟩
  ∧ (12477 - EPOCH_DIFFERENCE : Int) = 1460 := by
  refine ⟨by decide, by decide, by decide⟩

/-- C3 (code evaluated at the failing input): day offset 1460 — the true
29 February 2004 — decodes to 1 March 2004, which re-encodes to offset
1461, not 1460. -/
theorem from_days_1460_reencodes_to_1461 :
    (Date.from_days_since_epoch 1460).ymd = ⟨2004, Month.March, 1⟩
  ∧ YMD.to_days_since_epoch ⟨2004, Month.March, 1⟩ = Except.ok 12478
  ∧ (12478 - EPOCH_DIFFERENCE : Int) ≠ 1460 := by
  refine ⟨by decide, by decide, by decide⟩

/-- C4 (code evaluated at the failing input): for
s = 1078012800 (= 00:00:00 on 29 February 2004) and ms = 0,
`DateTime::at_ms(s, ms).to_instant()` returns seconds 1078099200, one full
day later than s, so `to_instant` does not invert `at_ms` there. -/
theorem at_ms_leap_day_to_instant_off_by_one_day :
    (DateTime.at_ms 1078012800 0).to_instant = ⟨1078099200, 0⟩
  ∧ (1078099200 : Int) ≠ 1078012800 := by
  refine ⟨by decide, by decide⟩

/-- C8 (code evaluated at the failing input): at day offset 1460 the
uncapped division chain yields a whole-years count of 4, so the code's
condition treats the current 1-year slot as a 365-day year, while the year
ultimately emitted is 2004, a leap year under the standard Gregorian rule
(366 days) — the two do not agree. -/
theorem leap_slot_flag_disagrees_with_gregorian :
    days_this_year_of 1460 = 365
  ∧ (Date.from_days_since_epoch 1460).ymd.year = 2004
  ∧ Year.is_leap_year 2004 = true := by
  refine ⟨by decide, by decide, by decide⟩

/-- C9: `Time::from_seconds_and_milliseconds_since_midnight` and the
public `DateTime::at_ms` store the supplied millisecond value without any
validation: the millisecond field of the result equals the argument
exactly, for every integer value, including values outside [0, 1000). -/
theorem millisecond_stored_unvalidated : ∀ seconds ms : Int,
    (Time.from_seconds_and_milliseconds_since_midnight seconds ms).millisecond = ms
  ∧ (DateTime.at_ms seconds ms).time.millisecond = ms :=
  fun _ _ => ⟨rfl, rfl⟩

/-- C6: `Time::hm(24, 0)` and `Time::hms(24, 0, 0)` succeed (the 24:00:00
sentinel) while `Time::hms_ms(24, 0, 0, ms)` fails with `OutOfRange` for
every millisecond value; apart from the sentinel, each constructor
succeeds exactly when hour is in [0, 24), minute and second in [0, 60) and
millisecond in [0, 1000), returning `OutOfRange` otherwise. -/
theorem time_constructor_validation :
    Time.hm 24 0 = Except.ok ⟨24, 0, 0, 0⟩
  ∧ Time.hms 24 0 0 = Except.ok ⟨24, 0, 0, 0⟩
  ∧ (∀ ms : Int, Time.hms_ms 24 0 0 ms = Except.error Error.OutOfRange)
  ∧ (∀ h m : Int, ¬ (h = 24 ∧ m = 0) →
      Time.hm h m = if 0 ≤ h ∧ h < 24 ∧ 0 ≤ m ∧ m < 60
        then Except.ok ⟨h, m, 0, 0⟩ else Except.error Error.OutOfRange)
  ∧ (∀ h m s : Int, ¬ (h = 24 ∧ m = 0 ∧ s = 0) →
      Time.hms h m s = if 0 ≤ h ∧ h < 24 ∧ 0 ≤ m ∧ m < 60 ∧ 0 ≤ s ∧ s < 60
        then Except.ok ⟨h, m, s, 0⟩ else Except.error Error.OutOfRange)
  ∧ (∀ h m s ms : Int,
      Time.hms_ms h m s ms
        = if 0 ≤ h ∧ h < 24 ∧ 0 ≤ m ∧ m < 60 ∧ 0 ≤ s ∧ s < 60 ∧ 0 ≤ ms ∧ ms < 1000
          then Except.ok ⟨h, m, s, ms⟩ else Except.error Error.OutOfRange) := by
  refine ⟨by decide, by decide, ?_, ?_, ?_, ?_⟩
  · intro ms; unfold Time.hms_ms; rw [if_neg (by omega)]
  · intro h m hs; unfold Time.hm
    by_cases hc : 0 ≤ h ∧ h < 24 ∧ 0 ≤ m ∧ m < 60
    · rw [if_pos (Or.inl ⟨hc.1, hc.2.1, hc.2.2.1, hc.2.2.2⟩), if_pos hc]
    · rw [if_neg (fun hor => hor.elim (fun hr => hc hr) (fun hsent => hs hsent)),
        if_neg hc]
  · intro h m s hs; unfold Time.hms
    by_cases hc : 0 ≤ h ∧ h < 24 ∧ 0 ≤ m ∧ m < 60 ∧ 0 ≤ s ∧ s < 60
    · rw [if_pos (Or.inl hc), if_pos hc]
    · rw [if_neg (fun hor => hor.elim (fun hr => hc hr) (fun hsent => hs hsent)),
        if_neg hc]
  · intro h m s ms; unfold Time.hms_ms
    by_cases hc : 0 ≤ h ∧ h < 24 ∧ 0 ≤ m ∧ m < 60 ∧ 0 ≤ s ∧ s < 60 ∧ 0 ≤ ms ∧ ms < 1000
    · rw [if_pos hc]
    · rw [if_neg hc]

/-- Witness for C6: the sentinel rejection and an ordinary out-of-range
rejection, obtained from the theorem at concrete inputs. -/
theorem time_constructor_validation_witness :
    Time.hms_ms 24 0 0 500 = Except.error Error.OutOfRange
  ∧ Time.hm 25 0 = Except.error Error.OutOfRange :=
  ⟨time_constructor_validation.2.2.1 500,
   by rw [time_constructor_validation.2.2.2.1 25 0 (by omega)]; rw [if_neg (by omega)]⟩

/-- C10 (counterexample): for the valid date 28 February 2004 (day offset
1459 from the anchor, 12476 from 1970), whose true following day is the
valid triple 29 February 2004 (offset 12477), decoding the instant of the
24:00:00 sentinel yields 1 March 2004 — not next-day 00:00:00 as the
claim states. -/
theorem sentinel_instant_no_roundtrip_cex :
    Time.hms 24 0 0 = Except.ok ⟨24, 0, 0, 0⟩
  ∧ (Date.from_days_since_epoch 1459).ymd = ⟨2004, Month.February, 28⟩
  ∧ YMD.to_days_since_epoch ⟨2004, Month.February, 28⟩ = Except.ok 12476
  ∧ YMD.to_days_since_epoch ⟨2004, Month.February, 29⟩ = Except.ok 12477
  ∧ (DateTime.from_instant
        ((DateTime.new (Date.from_days_since_epoch 1459) ⟨24, 0, 0, 0⟩).to_instant)).date.ymd
      = ⟨2004, Month.March, 1⟩
  ∧ (⟨2004, Month.March, 1⟩ : YMD) ≠ ⟨2004, Month.February, 29⟩ := by
  refine ⟨by decide, by decide, by decide, by decide, by decide, by decide⟩

/-- C10 (amended): for every `Date` d whose `YMD` encodes to day offset n,
the date-time (d, 24:00:00) maps under `to_instant` to (n + 1) * 86400
seconds — the same `Instant` as midnight of any date encoding to offset
n + 1 — and `from_instant` of that instant returns the midnight date-time
decoded from offset n + 1 (which is 1 March rather than the true next day
when the next day is 29 February), never the original date-time itself. -/
theorem sentinel_time_collapses (d : Date) (n : Int)
    (hn : d.ymd.to_days_since_epoch = Except.ok n) :
    (DateTime.new d ⟨24, 0, 0, 0⟩).to_instant = ⟨(n + 1) * SECONDS_IN_DAY, 0⟩
  ∧ (∀ d2 : Date, d2.ymd.to_days_since_epoch = Except.ok (n + 1) →
      (DateTime.new d2 Time.midnight).to_instant
        = (DateTime.new d ⟨24, 0, 0, 0⟩).to_instant)
  ∧ DateTime.from_instant ((DateTime.new d ⟨24, 0, 0, 0⟩).to_instant)
      = DateTime.new (Date.from_days_since_epoch (n + 1 - EPOCH_DIFFERENCE)) Time.midnight
  ∧ DateTime.from_instant ((DateTime.new d ⟨24, 0, 0, 0⟩).to_instant)
      ≠ DateTime.new d ⟨24, 0, 0, 0⟩ := by
  have hto : (DateTime.new d ⟨24, 0, 0, 0⟩).to_instant = ⟨(n + 1) * SECONDS_IN_DAY, 0⟩ := by
    unfold DateTime.to_instant DateTime.new unwrapOr0 Instant.at_ms Time.to_seconds
    rw [hn]
    simp only [SECONDS_IN_DAY]
    norm_num
    ring
  have hfrom : DateTime.from_instant (⟨(n + 1) * SECONDS_IN_DAY, 0⟩ : Instant)
      = DateTime.new (Date.from_days_since_epoch (n + 1 - EPOCH_DIFFERENCE)) Time.midnight := by
    simp only [DateTime.from_instant, DateTime.at_ms]
    have hsplit : split_cycles ((n + 1) * SECONDS_IN_DAY - EPOCH_DIFFERENCE * SECONDS_IN_DAY)
        SECONDS_IN_DAY = (n + 1 - EPOCH_DIFFERENCE, 0) := by
      rw [split_cycles_eq_ediv_emod _ _ (by norm_num [SECONDS_IN_DAY])]
      rw [show (n + 1) * SECONDS_IN_DAY - EPOCH_DIFFERENCE * SECONDS_IN_DAY
        = (n + 1 - EPOCH_DIFFERENCE) * SECONDS_IN_DAY by ring]
      refine Prod.ext ?_ ?_
      · simp only [SECONDS_IN_DAY]
        exact Int.mul_ediv_cancel _ (by norm_num)
      · simp only [SECONDS_IN_DAY]
        exact Int.mul_emod_left _ _
    rw [hsplit]
    simp only [DateTime.new, Time.midnight, Time.from_seconds_and_milliseconds_since_midnight]
    norm_num [i8cast]
  refine ⟨hto, ?_, ?_, ?_⟩
  · intro d2 hd2
    rw [hto]
    unfold DateTime.to_instant DateTime.new unwrapOr0 Instant.at_ms Time.to_seconds Time.midnight
    rw [hd2]
    norm_num
  · rw [hto]; exact hfrom
  · rw [hto, hfrom]
    intro heq
    have h24 : (0 : Int) = 24 := congrArg (fun dt => dt.time.hour) heq
    omega

/-- Witness for C10's amended theorem at the concrete date 28 February
2004 (day offset 1459 from the anchor, 12476 from 1970). -/
theorem sentinel_time_collapses_witness :
    (DateTime.new (Date.from_days_since_epoch 1459) ⟨24, 0, 0, 0⟩).to_instant
      = ⟨(12476 + 1) * SECONDS_IN_DAY, 0⟩
  ∧ DateTime.from_instant
        ((DateTime.new (Date.from_days_since_epoch 1459) ⟨24, 0, 0, 0⟩).to_instant)
      ≠ DateTime.new (Date.from_days_since_epoch 1459) ⟨24, 0, 0, 0⟩ :=
  ⟨(sentinel_time_collapses (Date.from_days_since_epoch 1459) 12476 (by decide)).1,
   (sentinel_time_collapses (Date.from_days_since_epoch 1459) 12476 (by decide)).2.2.2⟩

/-- The cumulative leap-year count shifts by 97 per 400 years. -/
theorem leapYearsCumulative_shift (y a : Int) :
    leapYearsCumulative (y + 400 * a) = leapYearsCumulative y + 97 * a := by
  unfold leapYearsCumulative
  have h4 : (y + 400 * a - 1) / 4 = (y - 1) / 4 + 100 * a := by
    rw [show y + 400 * a - 1 = (y - 1) + 100 * a * 4 by ring,
      Int.add_mul_ediv_right _ _ (by norm_num)]
  have h100 : (y + 400 * a - 1) / 100 = (y - 1) / 100 + 4 * a := by
    rw [show y + 400 * a - 1 = (y - 1) + 4 * a * 100 by ring,
      Int.add_mul_ediv_right _ _ (by norm_num)]
  have h400 : (y + 400 * a - 1) / 400 = (y - 1) / 400 + a := by
    rw [show y + 400 * a - 1 = (y - 1) + a * 400 by ring,
      Int.add_mul_ediv_right _ _ (by norm_num)]
  rw [h4, h100, h400]; ring

/-- Shifting the day offset by whole 400-year cycles shifts the decoded
year by 400 per cycle and leaves month and day unchanged. -/
theorem from_days_ymd_shift (a r : Int) (h0 : 0 ≤ r) (h1 : r < 146097) :
    (Date.from_days_since_epoch (146097 * a + r)).ymd
      = ⟨(Date.from_days_since_epoch r).ymd.year + 400 * a,
         (Date.from_days_since_epoch r).ymd.month,
         (Date.from_days_since_epoch r).ymd.day⟩ := by
  have hs1 : split_cycles (146097 * a + r) DAYS_IN_400Y = (a, r) := by
    rw [split_cycles_eq_ediv_emod _ _ (by norm_num [DAYS_IN_400Y])]
    refine Prod.ext ?_ ?_
    · show (146097 * a + r) / DAYS_IN_400Y = a
      simp only [DAYS_IN_400Y]
      omega
    · show (146097 * a + r) % DAYS_IN_400Y = r
      simp only [DAYS_IN_400Y]
      omega
  have hs2 : split_cycles r DAYS_IN_400Y = (0, r) := by
    rw [split_cycles_eq_ediv_emod _ _ (by norm_num [DAYS_IN_400Y])]
    refine Prod.ext ?_ ?_
    · show r / DAYS_IN_400Y = 0
      simp only [DAYS_IN_400Y]
      omega
    · show r % DAYS_IN_400Y = r
      simp only [DAYS_IN_400Y]
      omega
  simp only [Date.from_days_since_epoch, hs1, hs2]
  simp only [YMD.mk.injEq, and_true]
  split <;> ring

set_option maxRecDepth 4000 in
/-- The finite single-cycle check holds (kernel evaluation of all 400
cases). -/
theorem dec31Check_true : dec31Check = true := by decide

/-- Within one 400-year cycle, the day offset 365b + leap_days(2000+b) - 60
is in range and decodes to 31 December (1999 + b). -/
theorem dec31_of_cycle (b : Int) (hb1 : 1 ≤ b) (hb2 : b ≤ 400) :
    0 ≤ 365 * b + (Year.leap_year_calculations (2000 + b)).1 - 60
  ∧ 365 * b + (Year.leap_year_calculations (2000 + b)).1 - 60 < 146097
  ∧ (Date.from_days_since_epoch
        (365 * b + (Year.leap_year_calculations (2000 + b)).1 - 60)).ymd
      = ⟨1999 + b, Month.December, 31⟩ := by
  obtain ⟨n, hlt, rfl⟩ :
      ∃ n : Nat, n < 400 ∧ b = (n : Int) + 1 :=
    ⟨(b - 1).toNat, by omega, by omega⟩
  have hall := List.all_eq_true.mp dec31Check_true
  have hmem : n ∈ List.range 400 := List.mem_range.mpr hlt
  have hthis := hall n hmem
  exact of_decide_eq_true hthis

/-- The 1st of January is always a valid triple, and its day count since
1970 is (year - 2000) * 365 + 10958 + leap_days_elapsed. -/
theorem jan1_to_days (y : Int) :
    YMD.to_days_since_epoch ⟨y, Month.January, 1⟩
      = Except.ok ((y - 2000) * 365 + 10958 + (Year.leap_year_calculations y).1) := by
  unfold YMD.to_days_since_epoch
  simp only [YMD.is_valid, Month.days_in_month, Month.days_before_start, Month.natOrd]
  norm_num

/-- C7: `Date::yd(year, day_of_year)` fails with `OutOfRange` exactly when
`day_of_year` is outside [0, 367); within that range it returns the date
decoded from (day offset of 1 January of `year`) + `day_of_year` - 1
(shifted to the 1-March-2000 anchor); and in particular
`Date::yd(year, 0)` succeeds and yields 31 December of `year` - 1, for
every year. -/
theorem yd_characterization : ∀ y dy : Int,
    (¬ (0 ≤ dy ∧ dy < 367) → Date.yd y dy = Except.error Error.OutOfRange)
  ∧ (∀ j : Int, 0 ≤ dy → dy < 367 →
      YMD.to_days_since_epoch ⟨y, Month.January, 1⟩ = Except.ok j →
      Date.yd y dy = Except.ok (Date.from_days_since_epoch (j + dy - 1 - EPOCH_DIFFERENCE)))
  ∧ (Date.yd y 0).map (fun d => d.ymd) = Except.ok ⟨y - 1, Month.December, 31⟩ := by
  intro y dy
  refine ⟨?_, ?_, ?_⟩
  · intro hrange; unfold Date.yd; rw [if_neg hrange]
  · intro j h1 h2 hj; unfold Date.yd; rw [if_pos ⟨h1, h2⟩, hj]
  · unfold Date.yd
    rw [if_pos (by norm_num), jan1_to_days]
    simp only [Except.map]
    obtain ⟨a, b, hb1, hb2, hy⟩ :
        ∃ a b : Int, 1 ≤ b ∧ b ≤ 400 ∧ y = 2000 + 400 * a + b :=
      ⟨(y - 2001) / 400, (y - 2001) % 400 + 1, by omega, by omega, by omega⟩
    subst hy
    have hL : (Year.leap_year_calculations (2000 + 400 * a + b)).1
        = (Year.leap_year_calculations (2000 + b)).1 + 97 * a := by
      unfold Year.leap_year_calculations
      simp only
      rw [show (2000 + 400 * a + b : Int) = (2000 + b) + 400 * a by ring,
        leapYearsCumulative_shift]
      ring
    have hd := dec31_of_cycle b hb1 hb2
    have hD : (2000 + 400 * a + b - 2000) * 365 + 10958
        + (Year.leap_year_calculations (2000 + 400 * a + b)).1 + 0 - 1 - EPOCH_DIFFERENCE
        = 146097 * a + (365 * b + (Year.leap_year_calculations (2000 + b)).1 - 60) := by
      rw [hL]; simp only [EPOCH_DIFFERENCE]; ring
    rw [hD, from_days_ymd_shift a _ hd.1 hd.2.1, hd.2.2]
    simp only [Except.ok.injEq, YMD.mk.injEq, and_true]
    ring
